import Mathlib

/-!
Shallow embedding of the task-generation, project-reconciliation, deliverable
and user-administration logic of `backend/server.py` (eLearning 360 Project
Manager), together with theorems checking the specification's claims.

Modelling conventions:
* `uuid.uuid4()` identifiers are modelled by a `Nat` counter threaded through
  the generating functions; a fresh identifier is the current counter value and
  the counter is incremented.  Distinct counter values model distinct uuids.
* MongoDB collections are Lean lists of documents; `delete_one` removes the
  first matching element, `delete_many` filters, `find_one` takes the first
  match, and a Python dict comprehension keyed by id is a last-wins lookup.
* Python `float` money/percentages are modelled as `ℚ`; `round(x, 1)` is
  modelled as exact rational rounding to one decimal with ties to even, which
  is Python's rounding rule.
* Timestamps (`datetime.now(...).isoformat()`) and upload file names are
  passed in as explicit `String` parameters.
-/

namespace Learning360

/-- Checklist item as stored inside a task document (server.py `ChecklistItem`). -/
structure ChecklistItem where
  id : Nat
  text : String
  completed : Bool
deriving DecidableEq, Repr, Inhabited

/-- A checklist entry of a task template.  The source stores these as either a
dict (with `text` and `completed` keys) or a bare string (server.py lines
1043-1047 branch on `isinstance(item, dict)`). -/
inductive TemplateChecklistEntry where
  | dict (text : String) (completed : Bool)
  | str (text : String)
deriving DecidableEq, Repr

/-- A deliverable entry of a task template: a dict with a `name` key or a bare
string (server.py line 1023 `item.get("name", item) if isinstance(item, dict) else item`). -/
inductive TemplateDeliverableEntry where
  | dict (name : String)
  | str (name : String)
deriving DecidableEq, Repr

/-- The name extracted from a template deliverable entry (server.py line 1023). -/
def TemplateDeliverableEntry.entryName : TemplateDeliverableEntry → String
  | .dict n => n
  | .str n => n

/-- Deliverable document embedded in a task (server.py `Deliverable` model). -/
structure Deliverable where
  id : Nat
  name : String
  description : String
  status : String
  due_date : Option String
  file_name : Option String
  file_url : Option String
  file_size : Option Nat
  file_type : Option String
  uploaded_at : Option String
  uploaded_by : Option Nat
  feedback : Option String
  reviewed_by : Option Nat
  reviewed_at : Option String
deriving DecidableEq, Repr, Inhabited

/-- Task document (server.py `Task` model). -/
structure Task where
  id : Nat
  project_id : Nat
  module_id : String
  title : String
  description : String
  status : String
  checklist : List ChecklistItem
  deliverables : List Deliverable
  due_date : Option String
  assigned_to : Option Nat
  assigned_user_type : Option String
  created_at : String
deriving DecidableEq, Repr, Inhabited

/-- Task template inside a module configuration (server.py `TaskTemplate`). -/
structure TaskTemplate where
  title : String
  description : String
  assigned_user_type : Option String
  checklist : List TemplateChecklistEntry
  deliverables : List TemplateDeliverableEntry
deriving DecidableEq, Repr

/-- Module template from the `config_modules` store (server.py `ModuleConfig`). -/
structure ModuleTemplate where
  id : String
  name : String
  tasks : List TaskTemplate
deriving DecidableEq, Repr

/-- Last-wins lookup modelling the Python dict comprehension
`modules_dict = {m["id"]: m for m in db_modules}` (server.py line 1014). -/
def dictLookup : List ModuleTemplate → String → Option ModuleTemplate
  | [], _ => none
  | t :: rest, mid =>
    match dictLookup rest mid with
    | some r => some r
    | none => if t.id = mid then some t else none

/-- Materialize one deliverable from a template entry (server.py lines
1022-1039): fresh id, empty description, status `pending`, due date set to the
project's end date, every upload and review field null. -/
def mkDeliverable (end_date : String) (e : TemplateDeliverableEntry) (c : Nat) : Deliverable :=
  { id := c
    name := e.entryName
    description := ""
    status := "pending"
    due_date := some end_date
    file_name := none
    file_url := none
    file_size := none
    file_type := none
    uploaded_at := none
    uploaded_by := none
    feedback := none
    reviewed_by := none
    reviewed_at := none }

/-- Materialize a template's deliverable list, threading the uuid counter. -/
def mkDeliverables (end_date : String) : List TemplateDeliverableEntry → Nat → List Deliverable × Nat
  | [], c => ([], c)
  | e :: es, c =>
    let rest := mkDeliverables end_date es (c + 1)
    (mkDeliverable end_date e c :: rest.1, rest.2)

/-- Materialize one checklist item (server.py lines 1043-1047).  A dict entry
keeps all its keys (in particular its stored `completed` value) and only gets a
fresh id; a bare string gets `completed = false`. -/
def mkChecklistItem (e : TemplateChecklistEntry) (c : Nat) : ChecklistItem :=
  match e with
  | .dict text completed => { id := c, text := text, completed := completed }
  | .str text => { id := c, text := text, completed := false }

/-- Materialize a template's checklist, threading the uuid counter. -/
def mkChecklist : List TemplateChecklistEntry → Nat → List ChecklistItem × Nat
  | [], c => ([], c)
  | e :: es, c =>
    let rest := mkChecklist es (c + 1)
    (mkChecklistItem e c :: rest.1, rest.2)

/-- Build one task document from a task template (server.py lines 1020-1061):
deliverables first, then the checklist, then the `Task` model with a fresh id,
status `pending`, `due_date = end_date` and no assignee. -/
def buildTask (project_id : Nat) (module_id : String) (end_date now : String)
    (tt : TaskTemplate) (c : Nat) : Task × Nat :=
  let ds := mkDeliverables end_date tt.deliverables c
  let cl := mkChecklist tt.checklist ds.2
  ({ id := cl.2
     project_id := project_id
     module_id := module_id
     title := tt.title
     description := tt.description
     status := "pending"
     checklist := cl.1
     deliverables := ds.1
     due_date := some end_date
     assigned_to := none
     assigned_user_type := tt.assigned_user_type
     created_at := now }, cl.2 + 1)

/-- Expand every task template of one module, in template order. -/
def buildTasks (project_id : Nat) (module_id : String) (end_date now : String) :
    List TaskTemplate → Nat → List Task × Nat
  | [], c => ([], c)
  | tt :: tts, c =>
    let t := buildTask project_id module_id end_date now tt c
    let rest := buildTasks project_id module_id end_date now tts t.2
    (t.1 :: rest.1, rest.2)

/-- `generate_tasks_for_modules_async` (server.py lines 1010-1062): iterate the
requested module ids in caller order; module ids present in the template store
are expanded template-by-template, absent ones are skipped. -/
def generate_tasks_for_modules (project_id : Nat) (end_date now : String)
    (store : List ModuleTemplate) : List String → Nat → List Task × Nat
  | [], c => ([], c)
  | m :: ms, c =>
    match dictLookup store m with
    | some tpl =>
      let ts := buildTasks project_id m end_date now tpl.tasks c
      let rest := generate_tasks_for_modules project_id end_date now store ms ts.2
      (ts.1 ++ rest.1, rest.2)
    | none => generate_tasks_for_modules project_id end_date now store ms c

/-- All identifiers assigned while building one task, in generation order. -/
def taskGenIds (t : Task) : List Nat :=
  t.deliverables.map Deliverable.id ++ t.checklist.map ChecklistItem.id ++ [t.id]

/-- All identifiers assigned while building a batch of tasks, in generation order. -/
def batchGenIds (ts : List Task) : List Nat :=
  (ts.map taskGenIds).flatten

/-- All checklist-item identifiers of a batch of tasks. -/
def batchChecklistIds (ts : List Task) : List Nat :=
  (ts.map (fun t => t.checklist.map ChecklistItem.id)).flatten

/-- Number of fresh identifiers consumed when expanding one task template. -/
def templateWeight (tt : TaskTemplate) : Nat :=
  tt.deliverables.length + tt.checklist.length + 1

/-- Number of fresh identifiers consumed when expanding one requested module id. -/
def moduleWeight (store : List ModuleTemplate) (m : String) : Nat :=
  match dictLookup store m with
  | some tpl => (tpl.tasks.map templateWeight).sum
  | none => 0

/-- Number of tasks produced by one requested module id. -/
def moduleTaskCount (store : List ModuleTemplate) (m : String) : Nat :=
  match dictLookup store m with
  | some tpl => tpl.tasks.length
  | none => 0

lemma mkDeliverables_counter (ed : String) (es : List TemplateDeliverableEntry) :
    ∀ c, (mkDeliverables ed es c).2 = c + es.length := by
  induction es with
  | nil => intro c; rfl
  | cons e es ih =>
    intro c
    simp only [mkDeliverables, ih (c + 1), List.length_cons]
    omega

lemma mkDeliverables_ids (ed : String) (es : List TemplateDeliverableEntry) :
    ∀ c, (mkDeliverables ed es c).1.map Deliverable.id = List.range' c es.length := by
  induction es with
  | nil => intro c; rfl
  | cons e es ih =>
    intro c
    simp only [mkDeliverables, List.map_cons, ih (c + 1), List.length_cons,
      List.range'_succ]
    rfl

lemma mkChecklistItem_id (e : TemplateChecklistEntry) (c : Nat) :
    (mkChecklistItem e c).id = c := by
  cases e <;> rfl

lemma mkChecklist_counter (es : List TemplateChecklistEntry) :
    ∀ c, (mkChecklist es c).2 = c + es.length := by
  induction es with
  | nil => intro c; rfl
  | cons e es ih =>
    intro c
    simp only [mkChecklist, ih (c + 1), List.length_cons]
    omega

lemma mkChecklist_ids (es : List TemplateChecklistEntry) :
    ∀ c, (mkChecklist es c).1.map ChecklistItem.id = List.range' c es.length := by
  induction es with
  | nil => intro c; rfl
  | cons e es ih =>
    intro c
    simp only [mkChecklist, List.map_cons, ih (c + 1), List.length_cons,
      List.range'_succ, mkChecklistItem_id]

lemma buildTask_counter (pid : Nat) (mid ed now : String) (tt : TaskTemplate) (c : Nat) :
    (buildTask pid mid ed now tt c).2 = c + templateWeight tt := by
  simp only [buildTask, templateWeight, mkChecklist_counter, mkDeliverables_counter]
  omega

lemma range1_glue (s a b : Nat) :
    List.range' s a ++ List.range' (s + a) b ++ [s + a + b] = List.range' s (a + b + 1) := by
  have h2 : [s + a + b] = List.range' (s + a + b) 1 := rfl
  rw [h2, List.append_assoc, List.range'_append_1, List.range'_append_1]
  congr 1
  omega

lemma buildTask_ids (pid : Nat) (mid ed now : String) (tt : TaskTemplate) (c : Nat) :
    taskGenIds (buildTask pid mid ed now tt c).1
      = List.range' c (templateWeight tt) := by
  simp only [taskGenIds, buildTask, templateWeight, mkDeliverables_ids, mkChecklist_ids,
    mkDeliverables_counter, mkChecklist_counter]
  exact range1_glue c tt.deliverables.length tt.checklist.length

lemma buildTask_due_date (pid : Nat) (mid ed now : String) (tt : TaskTemplate) (c : Nat) :
    (buildTask pid mid ed now tt c).1.due_date = some ed := rfl

lemma batchGenIds_cons (t : Task) (ts : List Task) :
    batchGenIds (t :: ts) = taskGenIds t ++ batchGenIds ts := by
  simp [batchGenIds]

lemma batchGenIds_append (ts us : List Task) :
    batchGenIds (ts ++ us) = batchGenIds ts ++ batchGenIds us := by
  simp [batchGenIds]

lemma buildTasks_counter (pid : Nat) (mid ed now : String) (tts : List TaskTemplate) :
    ∀ c, (buildTasks pid mid ed now tts c).2 = c + (tts.map templateWeight).sum := by
  induction tts with
  | nil => intro c; rfl
  | cons tt tts ih =>
    intro c
    simp only [buildTasks, ih, buildTask_counter, List.map_cons, List.sum_cons]
    omega

lemma buildTasks_ids (pid : Nat) (mid ed now : String) (tts : List TaskTemplate) :
    ∀ c, batchGenIds (buildTasks pid mid ed now tts c).1
      = List.range' c ((tts.map templateWeight).sum) := by
  induction tts with
  | nil => intro c; rfl
  | cons tt tts ih =>
    intro c
    simp only [buildTasks, batchGenIds_cons, buildTask_ids, buildTask_counter, ih,
      List.map_cons, List.sum_cons, List.range'_append_1]
    congr 1
    omega

lemma buildTasks_length (pid : Nat) (mid ed now : String) (tts : List TaskTemplate) :
    ∀ c, (buildTasks pid mid ed now tts c).1.length = tts.length := by
  induction tts with
  | nil => intro c; rfl
  | cons tt tts ih =>
    intro c
    simp [buildTasks, ih]

lemma buildTasks_due_date (pid : Nat) (mid ed now : String) (tts : List TaskTemplate) :
    ∀ c, ∀ t ∈ (buildTasks pid mid ed now tts c).1, t.due_date = some ed := by
  induction tts with
  | nil => intro c t ht; cases ht
  | cons tt tts ih =>
    intro c t ht
    simp only [buildTasks, List.mem_cons] at ht
    rcases ht with h | h
    · rw [h]; exact buildTask_due_date pid mid ed now tt c
    · exact ih _ t h

lemma generate_counter (pid : Nat) (ed now : String) (store : List ModuleTemplate)
    (ms : List String) :
    ∀ c, (generate_tasks_for_modules pid ed now store ms c).2
      = c + (ms.map (moduleWeight store)).sum := by
  induction ms with
  | nil => intro c; rfl
  | cons m ms ih =>
    intro c
    simp only [generate_tasks_for_modules, List.map_cons, List.sum_cons, moduleWeight]
    cases h : dictLookup store m with
    | none => simp only [ih c]; omega
    | some tpl =>
      simp only [ih, buildTasks_counter]
      omega

lemma generate_ids (pid : Nat) (ed now : String) (store : List ModuleTemplate)
    (ms : List String) :
    ∀ c, batchGenIds (generate_tasks_for_modules pid ed now store ms c).1
      = List.range' c ((ms.map (moduleWeight store)).sum) := by
  induction ms with
  | nil => intro c; rfl
  | cons m ms ih =>
    intro c
    simp only [generate_tasks_for_modules, List.map_cons, List.sum_cons, moduleWeight]
    cases h : dictLookup store m with
    | none => simp [ih c]
    | some tpl =>
      simp only [batchGenIds_append, buildTasks_ids, buildTasks_counter, ih,
        List.range'_append_1]
      congr 1
      omega

lemma generate_length (pid : Nat) (ed now : String) (store : List ModuleTemplate)
    (ms : List String) :
    ∀ c, (generate_tasks_for_modules pid ed now store ms c).1.length
      = (ms.map (moduleTaskCount store)).sum := by
  induction ms with
  | nil => intro c; rfl
  | cons m ms ih =>
    intro c
    simp only [generate_tasks_for_modules, List.map_cons, List.sum_cons, moduleTaskCount]
    cases h : dictLookup store m with
    | none => simp [ih c]
    | some tpl =>
      simp [buildTasks_length, ih]

lemma generate_due_date (pid : Nat) (ed now : String) (store : List ModuleTemplate)
    (ms : List String) :
    ∀ c, ∀ t ∈ (generate_tasks_for_modules pid ed now store ms c).1,
      t.due_date = some ed := by
  induction ms with
  | nil => intro c t ht; cases ht
  | cons m ms ih =>
    intro c t ht
    simp only [generate_tasks_for_modules] at ht
    cases h : dictLookup store m with
    | none =>
      rw [h] at ht
      exact ih _ t ht
    | some tpl =>
      rw [h] at ht
      rcases List.mem_append.mp ht with h1 | h1
      · exact buildTasks_due_date pid m ed now tpl.tasks _ t h1
      · exact ih _ t h1

lemma flatten_sublist_flatten (f g : Task → List Nat)
    (h : ∀ t, List.Sublist (f t) (g t)) :
    ∀ ts : List Task, List.Sublist (ts.map f).flatten (ts.map g).flatten := by
  intro ts
  induction ts with
  | nil => simp
  | cons t ts ih =>
    simp only [List.map_cons, List.flatten_cons]
    exact List.Sublist.append (h t) ih

lemma task_id_sublist_genIds (t : Task) : List.Sublist [t.id] (taskGenIds t) := by
  simp only [taskGenIds]
  exact List.sublist_append_right _ _

lemma checklist_ids_sublist_genIds (t : Task) :
    List.Sublist (t.checklist.map ChecklistItem.id) (taskGenIds t) := by
  have h1 : List.Sublist (t.checklist.map ChecklistItem.id)
      (t.checklist.map ChecklistItem.id ++ [t.id]) := List.sublist_append_left _ _
  have h2 : List.Sublist (t.checklist.map ChecklistItem.id ++ [t.id])
      (t.deliverables.map Deliverable.id ++ (t.checklist.map ChecklistItem.id ++ [t.id])) :=
    List.sublist_append_right _ _
  have h3 := h1.trans h2
  simp only [taskGenIds, List.append_assoc]
  exact h3

lemma batch_task_ids_sublist (ts : List Task) :
    List.Sublist (ts.map Task.id) (batchGenIds ts) := by
  have h : ts.map Task.id = (ts.map fun t => [t.id]).flatten := by
    induction ts with
    | nil => rfl
    | cons t ts ih => simp [ih]
  rw [h]
  exact flatten_sublist_flatten _ _ task_id_sublist_genIds ts

lemma batch_checklist_ids_sublist (ts : List Task) :
    List.Sublist (batchChecklistIds ts) (batchGenIds ts) :=
  flatten_sublist_flatten _ _ checklist_ids_sublist_genIds ts

lemma generate_genIds_nodup (pid : Nat) (ed now : String) (store : List ModuleTemplate)
    (ms : List String) (c : Nat) :
    (batchGenIds (generate_tasks_for_modules pid ed now store ms c).1).Nodup := by
  rw [generate_ids]
  exact List.nodup_range' c _

lemma dictLookup_cons (t : ModuleTemplate) (rest : List ModuleTemplate) (m : String) :
    dictLookup (t :: rest) m
      = match dictLookup rest m with
        | some r => some r
        | none => if t.id = m then some t else none := rfl

lemma dictLookup_eq_none (store : List ModuleTemplate) (m : String)
    (h : m ∉ store.map ModuleTemplate.id) : dictLookup store m = none := by
  induction store with
  | nil => rfl
  | cons t rest ih =>
    simp only [List.map_cons, List.mem_cons] at h
    push_neg at h
    rw [dictLookup_cons, ih h.2]
    exact if_neg (fun he => h.1 he.symm)

lemma dictLookup_cons_nodup (t : ModuleTemplate) (rest : List ModuleTemplate) (m : String)
    (h : t.id ∉ rest.map ModuleTemplate.id) :
    dictLookup (t :: rest) m = if t.id = m then some t else dictLookup rest m := by
  rw [dictLookup_cons]
  cases hr : dictLookup rest m with
  | none => rfl
  | some r =>
    have he : t.id ≠ m := by
      intro he
      rw [he] at h
      rw [dictLookup_eq_none rest m h] at hr
      cases hr
    simp [he]

lemma contains_eq_decide_mem (l : List String) (a : String) :
    l.contains a = decide (a ∈ l) := by
  simp [List.contains]

lemma sum_map_ite (modules : List String) (a : String) (X : Nat) (g : String → Nat)
    (hM : modules.Nodup) (hga : g a = 0) :
    (modules.map (fun m => if a = m then X else g m)).sum
      = (if a ∈ modules then X else 0) + (modules.map g).sum := by
  induction modules with
  | nil => simp
  | cons m ms ih =>
    obtain ⟨hm, hms⟩ := List.nodup_cons.mp hM
    by_cases he : a = m
    · subst he
      simp only [List.map_cons, List.sum_cons, if_pos rfl, List.mem_cons, true_or, if_true]
      have hmap : ms.map (fun x => if a = x then X else g x) = ms.map g := by
        apply List.map_congr_left
        intro x hx
        have hax : a ≠ x := by
          intro hax
          rw [hax] at hm
          exact hm hx
        rw [if_neg hax]
      rw [hmap, hga]
      omega
    · simp only [List.map_cons, List.sum_cons, if_neg he, ih hms]
      by_cases hmem : a ∈ ms
      · simp only [if_pos hmem, List.mem_cons, hmem, or_true, if_true]
        omega
      · have hnot : a ∉ m :: ms := by
          simp [List.mem_cons, he, hmem]
        simp only [if_neg hmem, if_neg hnot]
        omega

lemma count_store_sum (store : List ModuleTemplate) (modules : List String)
    (hM : modules.Nodup) (hS : (store.map ModuleTemplate.id).Nodup) :
    (modules.map (moduleTaskCount store)).sum
      = ((store.filter (fun t => modules.contains t.id)).map
          (fun t => t.tasks.length)).sum := by
  induction store with
  | nil =>
    have h0 : ∀ l : List String, (l.map (moduleTaskCount [])).sum = 0 := by
      intro l
      induction l with
      | nil => rfl
      | cons x xs ih => simpa [moduleTaskCount, dictLookup] using ih
    simp [h0 modules]
  | cons t rest ih =>
    rw [List.map_cons, List.nodup_cons] at hS
    obtain ⟨ht, hrest⟩ := hS
    have hcount : ∀ m ∈ modules, moduleTaskCount (t :: rest) m
        = if t.id = m then t.tasks.length else moduleTaskCount rest m := by
      intro m _
      by_cases he : t.id = m
      · simp [moduleTaskCount, dictLookup_cons_nodup t rest m ht, he]
      · simp [moduleTaskCount, dictLookup_cons_nodup t rest m ht, he]
    have hga : moduleTaskCount rest t.id = 0 := by
      simp [moduleTaskCount, dictLookup_eq_none rest t.id ht]
    rw [List.map_congr_left hcount, sum_map_ite modules t.id t.tasks.length _ hM hga,
      ih hrest, List.filter_cons]
    rw [contains_eq_decide_mem]
    by_cases hmem : t.id ∈ modules
    · simp [hmem]
    · simp [hmem]

/-- Claim C3: for duplicate-free module id list M (the spec treats M as a set) and a
store with unique module ids, `generate_tasks(p, M, D)` produces exactly
`sum(len(template.tasks) for template in store if template.id in M)` task
documents, each with due date D; the generated task identifiers are pairwise
distinct (fresh); module ids absent from the store are silently skipped,
contributing zero tasks and raising no error. -/
theorem C3_generate_tasks_count (project_id : Nat) (end_date now : String)
    (store : List ModuleTemplate) (modules : List String) (c : Nat)
    (hM : modules.Nodup) (hS : (store.map ModuleTemplate.id).Nodup) :
    (generate_tasks_for_modules project_id end_date now store modules c).1.length
      = ((store.filter (fun t => modules.contains t.id)).map
          (fun t => t.tasks.length)).sum
    ∧ (∀ t ∈ (generate_tasks_for_modules project_id end_date now store modules c).1,
        t.due_date = some end_date)
    ∧ ((generate_tasks_for_modules project_id end_date now store modules c).1.map
        Task.id).Nodup
    ∧ (∀ m, dictLookup store m = none →
        generate_tasks_for_modules project_id end_date now store (m :: modules) c
          = generate_tasks_for_modules project_id end_date now store modules c) := by
  refine ⟨?_, generate_due_date project_id end_date now store modules c, ?_, ?_⟩
  · rw [generate_length, count_store_sum store modules hM hS]
  · exact List.Nodup.sublist (batch_task_ids_sublist _)
      (generate_genIds_nodup project_id end_date now store modules c)
  · intro m hm
    simp [generate_tasks_for_modules, hm]

/-- Concrete template store used to exercise C3: two modules, one requested id
missing from the store. -/
def c3Store : List ModuleTemplate :=
  [⟨"design", "Diseño de Marca", [⟨"Propuestas de Logotipo", "", some "creativo",
      [.str "Investigación de marca"], [.str "Documento de propuestas"]⟩,
    ⟨"Identidad Visual Completa", "", some "creativo", [], []⟩]⟩,
   ⟨"tech", "Tecnología", [⟨"Portal Web Principal", "", some "desarrollo", [],
      [.str "Portal web operativo"]⟩]⟩]

/-- Witness for C3 at a concrete input. -/
theorem C3_witness :
    (generate_tasks_for_modules 1 "2025-01-31" "t0" c3Store ["design", "missing"] 0).1.length
      = ((c3Store.filter (fun t => (["design", "missing"] : List String).contains t.id)).map
          (fun t => t.tasks.length)).sum
    ∧ (∀ t ∈ (generate_tasks_for_modules 1 "2025-01-31" "t0" c3Store ["design", "missing"] 0).1,
        t.due_date = some "2025-01-31")
    ∧ ((generate_tasks_for_modules 1 "2025-01-31" "t0" c3Store ["design", "missing"] 0).1.map
        Task.id).Nodup
    ∧ (∀ m, dictLookup c3Store m = none →
        generate_tasks_for_modules 1 "2025-01-31" "t0" c3Store (m :: ["design", "missing"]) 0
          = generate_tasks_for_modules 1 "2025-01-31" "t0" c3Store ["design", "missing"] 0) :=
  C3_generate_tasks_count 1 "2025-01-31" "t0" c3Store ["design", "missing"] 0
    (by decide) (by decide)

/-- Template store exhibiting the C1 counterexample: a dict-shaped checklist
item whose stored `completed` flag is `true`. -/
def c1Store : List ModuleTemplate :=
  [⟨"design", "Diseño de Marca", [⟨"Propuestas de Logotipo", "", none,
      [TemplateChecklistEntry.dict "Investigación de marca" true], []⟩]⟩]

/-- Claim C1 counterexample: template expansion does NOT reset `completed` to false
for dict-shaped checklist items; the template's stored `completed = true`
survives into the generated task (server.py line 1045 spreads the dict and
only replaces the id). -/
theorem C1_counterexample :
    ¬ (∀ t ∈ (generate_tasks_for_modules 1 "2025-01-31" "t0" c1Store ["design"] 0).1,
        ∀ it ∈ t.checklist, it.completed = false) := by decide

/-- Claim C1 (amended): every checklist item of a generated task receives a fresh
identifier, pairwise distinct across the whole generated batch; a checklist
entry given as a bare string is materialized with `completed = false`, while a
dict-shaped entry keeps the `completed` value stored in the template. -/
theorem C1_checklist_items (project_id : Nat) (end_date now : String)
    (store : List ModuleTemplate) (modules : List String) (c : Nat) :
    (batchChecklistIds
        (generate_tasks_for_modules project_id end_date now store modules c).1).Nodup
    ∧ (∀ text c', mkChecklistItem (TemplateChecklistEntry.str text) c'
        = { id := c', text := text, completed := false })
    ∧ (∀ text b c', mkChecklistItem (TemplateChecklistEntry.dict text b) c'
        = { id := c', text := text, completed := b }) :=
  ⟨List.Nodup.sublist (batch_checklist_ids_sublist _)
      (generate_genIds_nodup project_id end_date now store modules c),
    fun _ _ => rfl, fun _ _ _ => rfl⟩

/-- Error taxonomy of the HTTP handlers: `HTTPException(400, ...)` and
`HTTPException(404, ...)`. -/
inductive ApiError where
  | badRequest (detail : String)
  | notFound (detail : String)
deriving DecidableEq, Repr

/-- Mongo `delete_one`: remove the first document matching the predicate
(no change when nothing matches). -/
def removeFirst {α : Type} (p : α → Bool) : List α → List α
  | [] => []
  | a :: as => if p a then as else a :: removeFirst p as

/-- Update the first element matching a predicate, or `none` when no element
matches: models the find-then-update loops over a task's deliverables. -/
def updateFirst {α : Type} (p : α → Bool) (f : α → α) : List α → Option (List α)
  | [] => none
  | a :: as => if p a then some (f a :: as) else (updateFirst p f as).map (a :: ·)

/-- Python `file_url.split("/")[-1]` (server.py lines 1642 and 1915). -/
def fileNameOfUrl (url : String) : String := (url.splitOn "/").getLastD ""

/-- The stored file names referenced by a task's uploaded deliverables
(server.py lines 1640-1645: every deliverable with a non-null `file_url`). -/
def referencedFileNames (t : Task) : List String :=
  (t.deliverables.filterMap Deliverable.file_url).map fileNameOfUrl

/-- The module-reconciliation effect of `update_project` (server.py lines
1399-1423) on the task collection and the upload file store:
`modules_to_add = [m for m in new if m not in old]` is expanded through the
task generator and inserted; every task of this project whose module id is in
`modules_to_remove = [m for m in old if m not in new]` is deleted
(`db.tasks.delete_many`).  The handler performs no file-store operation. -/
def update_project_modules (project_id : Nat) (old_modules new_modules : List String)
    (end_date now : String) (store : List ModuleTemplate) (c : Nat)
    (tasks : List Task) (files : List String) : (List Task × List String) × Nat :=
  let modules_to_add := new_modules.filter (fun m => !(old_modules.contains m))
  let modules_to_remove := old_modules.filter (fun m => !(new_modules.contains m))
  let gen := generate_tasks_for_modules project_id end_date now store modules_to_add c
  let tasks1 := tasks ++ gen.1
  let tasks2 := tasks1.filter
    (fun t => !(t.project_id == project_id && modules_to_remove.contains t.module_id))
  ((tasks2, files), gen.2)

lemma filter_not_contains_self (l : List String) :
    l.filter (fun m => !(l.contains m)) = [] := by
  apply List.filter_eq_nil_iff.mpr
  intro a ha
  simp [List.contains, ha]

/-- Claim C4: reconciling a project with an unchanged module selection
(old = new = S) generates no tasks, deletes no tasks, leaves every existing
task (all fields) untouched, leaves the file store untouched and consumes no
fresh identifiers. -/
theorem C4_reconcile_unchanged (project_id : Nat) (S : List String)
    (end_date now : String) (store : List ModuleTemplate) (c : Nat)
    (tasks : List Task) (files : List String) :
    update_project_modules project_id S S end_date now store c tasks files
      = ((tasks, files), c) := by
  unfold update_project_modules
  rw [filter_not_contains_self S]
  simp [generate_tasks_for_modules]

/-- A deliverable carrying an uploaded file, used to exhibit C2. -/
def c2Deliverable : Deliverable :=
  { id := 10, name := "Logo", description := "", status := "in_review",
    due_date := some "2025-01-31", file_name := some "logo.png",
    file_url := some "/api/uploads/logo.png", file_size := some 100,
    file_type := some "image/png", uploaded_at := some "t1", uploaded_by := some 2,
    feedback := none, reviewed_by := none, reviewed_at := none }

/-- A task of project 1, module `design`, holding `c2Deliverable`. -/
def c2Task : Task :=
  { id := 20, project_id := 1, module_id := "design", title := "Propuestas de Logotipo",
    description := "", status := "pending", checklist := [],
    deliverables := [c2Deliverable], due_date := some "2025-01-31",
    assigned_to := none, assigned_user_type := none, created_at := "t0" }

/-- Claim C2 counterexample: removing module `design` from project 1 deletes the
module's task but leaves its uploaded deliverable file `logo.png` in the file
store — the existence check still returns true, contradicting the claim that
the files are deleted before the task record. -/
theorem C2_counterexample :
    ((update_project_modules 1 ["design"] [] "2025-01-31" "t2" [] 0
        [c2Task] ["logo.png"]).1.1 = [])
    ∧ ((update_project_modules 1 ["design"] [] "2025-01-31" "t2" [] 0
        [c2Task] ["logo.png"]).1.2.contains "logo.png" = true) := by
  decide

/-- Claim C2 (amended): after reconciliation no task of the project whose module id
is among the removed modules survives, but the uploaded deliverable files of
those tasks are NOT removed — the file store is returned unchanged. -/
theorem C2_remove_modules (project_id : Nat) (old_modules new_modules : List String)
    (end_date now : String) (store : List ModuleTemplate) (c : Nat)
    (tasks : List Task) (files : List String) :
    ((update_project_modules project_id old_modules new_modules end_date now store c
        tasks files).1.1.filter
      (fun t => t.project_id == project_id
        && (old_modules.filter (fun m => !(new_modules.contains m))).contains t.module_id))
      = []
    ∧ (update_project_modules project_id old_modules new_modules end_date now store c
        tasks files).1.2 = files := by
  constructor
  · unfold update_project_modules
    simp only [List.filter_filter]
    apply List.filter_eq_nil_iff.mpr
    intro t ht
    simp
  · rfl

/-- Project document (server.py `Project` model). -/
structure Project where
  id : Nat
  name : String
  client_name : String
  start_date : String
  end_date : String
  modules : List String
  module_costs : List (String × ℚ)
  billing_mode : String
  status : String
  description : String
  created_by : Nat
  created_at : String
  progress : ℚ
  cost_per_module : ℚ
  total_project_cost : ℚ
  enrollment_payment : ℚ
deriving DecidableEq, Repr

/-- Persistent state touched by the project/task delete handlers: the
`projects` and `tasks` collections and the uploads directory. -/
structure DBState where
  projects : List Project
  tasks : List Task
  files : List String
deriving DecidableEq, Repr

/-- `delete_project` (server.py lines 1471-1480): delete the project document
(404 when absent, nothing else touched then), then delete every task of the
project.  No file-store operation is performed. -/
def delete_project (db : DBState) (project_id : Nat) : Except ApiError DBState :=
  if db.projects.any (fun p => p.id == project_id) then
    .ok { db with
          projects := removeFirst (fun p => p.id == project_id) db.projects,
          tasks := db.tasks.filter (fun t => !(t.project_id == project_id)) }
  else .error (.notFound "Proyecto no encontrado")

/-- `delete_task` (server.py lines 1632-1648): look up the task (404 when
absent), unlink every file referenced by its deliverables from the uploads
directory, then delete the task record. -/
def delete_task (db : DBState) (task_id : Nat) : Except ApiError DBState :=
  match db.tasks.find? (fun t => t.id == task_id) with
  | none => .error (.notFound "Tarea no encontrada")
  | some task =>
    .ok { db with
          files := db.files.filter (fun f => !((referencedFileNames task).contains f)),
          tasks := removeFirst (fun t => t.id == task_id) db.tasks }

/-- Claim C10: deleting a project removes the project document and every task of the
project but leaves the file store unchanged, whereas deleting a single task
removes the files referenced by its deliverables from the file store (they no
longer exist afterwards) before removing the task record. -/
theorem C10_delete_project_vs_task (db : DBState) (project_id task_id : Nat) :
    (∀ db2, delete_project db project_id = .ok db2 →
      db2.files = db.files
      ∧ db2.tasks = db.tasks.filter (fun t => !(t.project_id == project_id))
      ∧ db2.projects = removeFirst (fun p => p.id == project_id) db.projects)
    ∧ (∀ task, db.tasks.find? (fun t => t.id == task_id) = some task →
      delete_task db task_id
        = .ok { db with
                files := db.files.filter
                  (fun f => !((referencedFileNames task).contains f)),
                tasks := removeFirst (fun t => t.id == task_id) db.tasks }
      ∧ ∀ f ∈ referencedFileNames task,
          (db.files.filter
            (fun g => !((referencedFileNames task).contains g))).contains f = false) := by
  constructor
  · intro db2 h
    unfold delete_project at h
    by_cases hex : db.projects.any (fun p => p.id == project_id)
    · rw [if_pos hex] at h
      cases h
      exact ⟨rfl, rfl, rfl⟩
    · rw [if_neg hex] at h
      cases h
  · intro task h
    refine ⟨?_, ?_⟩
    · unfold delete_task
      rw [h]
    · intro f hf
      have hnot : f ∉ db.files.filter
          (fun g => !((referencedFileNames task).contains g)) := by
        intro hmem
        rcases List.mem_filter.mp hmem with ⟨-, hpred⟩
        rw [contains_eq_decide_mem] at hpred
        simp at hpred
        exact hpred hf
      rw [contains_eq_decide_mem]
      exact decide_eq_false hnot

/-- Concrete project for the C10 witness. -/
def c10Project : Project :=
  { id := 1, name := "Campus", client_name := "ACME", start_date := "2025-01-01",
    end_date := "2025-06-30", modules := ["design"], module_costs := [("design", 1000)],
    billing_mode := "module", status := "active", description := "", created_by := 9,
    created_at := "t0", progress := 0, cost_per_module := 0,
    total_project_cost := 1000, enrollment_payment := 0 }

/-- Concrete database for the C10 witness: one project, one task referencing
the stored file `logo.png`. -/
def c10Db : DBState :=
  { projects := [c10Project], tasks := [c2Task], files := ["logo.png", "other.pdf"] }

/-- Witness for C10: at `c10Db`, project deletion keeps the file store intact
while task deletion removes the referenced file. -/
theorem C10_witness :
    ((DBState.mk [] [] ["logo.png", "other.pdf"]).files = c10Db.files
      ∧ (DBState.mk [] [] ["logo.png", "other.pdf"]).tasks
          = c10Db.tasks.filter (fun t => !(t.project_id == 1))
      ∧ (DBState.mk [] [] ["logo.png", "other.pdf"]).projects
          = removeFirst (fun p => p.id == 1) c10Db.projects)
    ∧ (delete_task c10Db 20
        = .ok { c10Db with
                files := c10Db.files.filter
                  (fun f => !((referencedFileNames c2Task).contains f)),
                tasks := removeFirst (fun t => t.id == 20) c10Db.tasks }
      ∧ ∀ f ∈ referencedFileNames c2Task,
          (c10Db.files.filter
            (fun g => !((referencedFileNames c2Task).contains g))).contains f = false) :=
  ⟨(C10_delete_project_vs_task c10Db 1 20).1
      (DBState.mk [] [] ["logo.png", "other.pdf"]) rfl,
    (C10_delete_project_vs_task c10Db 1 20).2 c2Task (by decide)⟩

lemma updateFirst_spec {α : Type} (p : α → Bool) (f : α → α)
    (pre : List α) (d : α) (post : List α)
    (hpre : ∀ x ∈ pre, p x = false) (hd : p d = true) :
    updateFirst p f (pre ++ d :: post) = some (pre ++ f d :: post) := by
  induction pre with
  | nil => simp [updateFirst, hd]
  | cons a as ih =>
    have ha : p a = false := hpre a (List.mem_cons_self a as)
    have ih' := ih (fun x hx => hpre x (List.mem_cons_of_mem a hx))
    show updateFirst p f (a :: (as ++ d :: post)) = some (a :: (as ++ f d :: post))
    simp only [updateFirst, ha, Bool.false_eq_true, if_false]
    simp [ih']

/-- The upload mutation applied to the matched deliverable (server.py lines
1847-1855): set the upload metadata and move a `pending` deliverable to
`in_review`, leaving any other status unchanged. -/
def applyUpload (fname uniq : String) (fsize : Nat) (ftype now : String)
    (uploader : Nat) (d : Deliverable) : Deliverable :=
  { d with
    file_name := some fname
    file_url := some ("/api/uploads/" ++ uniq)
    file_size := some fsize
    file_type := some ftype
    uploaded_at := some now
    uploaded_by := some uploader
    status := if d.status = "pending" then "in_review" else d.status }

/-- `upload_deliverable_file` restricted to one task document (server.py lines
1813-1857): find the first deliverable with the requested id (404 when
absent), apply the upload mutation, write back the deliverable array.  The
generated unique file name is passed in as `uniq`. -/
def upload_deliverable_file (t : Task) (did : Nat) (fname uniq : String)
    (fsize : Nat) (ftype now : String) (uploader : Nat) : Except ApiError Task :=
  match updateFirst (fun d => d.id == did)
      (applyUpload fname uniq fsize ftype now uploader) t.deliverables with
  | none => .error (.notFound "Entregable no encontrado")
  | some ds => .ok { t with deliverables := ds }

/-- Claim C5: uploading a file to an existing deliverable sets the upload metadata
and transitions a `pending` deliverable to `in_review`, while a deliverable
whose status is anything else (`in_review`, `approved`, `rejected`, ...) keeps
its status unchanged. -/
theorem C5_upload_status (t : Task) (did : Nat) (fname uniq ftype now : String)
    (fsize uploader : Nat) (pre post : List Deliverable) (d : Deliverable)
    (hsplit : t.deliverables = pre ++ d :: post)
    (hpre : ∀ x ∈ pre, (x.id == did) = false)
    (hd : d.id = did) :
    upload_deliverable_file t did fname uniq fsize ftype now uploader
      = .ok { t with deliverables :=
          pre ++ applyUpload fname uniq fsize ftype now uploader d :: post }
    ∧ (d.status = "pending" →
        (applyUpload fname uniq fsize ftype now uploader d).status = "in_review")
    ∧ (d.status ≠ "pending" →
        (applyUpload fname uniq fsize ftype now uploader d).status = d.status)
    ∧ (applyUpload fname uniq fsize ftype now uploader d).uploaded_by = some uploader
    ∧ (applyUpload fname uniq fsize ftype now uploader d).uploaded_at = some now
    ∧ (applyUpload fname uniq fsize ftype now uploader d).file_name = some fname
    ∧ (applyUpload fname uniq fsize ftype now uploader d).file_size = some fsize
    ∧ (applyUpload fname uniq fsize ftype now uploader d).file_type = some ftype := by
  refine ⟨?_, ?_, ?_, rfl, rfl, rfl, rfl, rfl⟩
  · unfold upload_deliverable_file
    rw [hsplit, updateFirst_spec _ _ pre d post hpre (by simp [hd])]
  · intro hp
    simp [applyUpload, hp]
  · intro hp
    simp [applyUpload, hp]

/-- Concrete pending deliverable for the C5 witness. -/
def c5Pending : Deliverable :=
  { id := 30, name := "Manual", description := "", status := "pending",
    due_date := some "2025-01-31", file_name := none, file_url := none,
    file_size := none, file_type := none, uploaded_at := none, uploaded_by := none,
    feedback := none, reviewed_by := none, reviewed_at := none }

/-- Concrete task holding `c5Pending` for the C5 witness. -/
def c5Task : Task :=
  { id := 31, project_id := 1, module_id := "design", title := "Identidad Visual",
    description := "", status := "pending", checklist := [],
    deliverables := [c5Pending], due_date := some "2025-01-31",
    assigned_to := none, assigned_user_type := none, created_at := "t0" }

/-- Witness for C5: uploading to the pending deliverable of `c5Task` succeeds
and moves it to `in_review`. -/
theorem C5_witness :
    upload_deliverable_file c5Task 30 "manual.pdf" "u1" 512 "application/pdf" "t3" 4
      = .ok { c5Task with deliverables :=
          [] ++ applyUpload "manual.pdf" "u1" 512 "application/pdf" "t3" 4 c5Pending :: [] }
    ∧ (c5Pending.status = "pending" →
        (applyUpload "manual.pdf" "u1" 512 "application/pdf" "t3" 4 c5Pending).status
          = "in_review")
    ∧ (applyUpload "manual.pdf" "u1" 512 "application/pdf" "t3" 4 c5Pending).status
        = "in_review" :=
  have h := C5_upload_status c5Task 30 "manual.pdf" "u1" "application/pdf" "t3" 512 4
    [] [] c5Pending rfl (by decide) rfl
  ⟨h.1, h.2.1, h.2.1 rfl⟩

/-- `DeliverableUpdate` request model (server.py lines 268-273): optional
fields, absent (`None`) fields are not written. -/
structure DeliverableUpdate where
  name : Option String
  description : Option String
  status : Option String
  due_date : Option String
  feedback : Option String
deriving DecidableEq, Repr

/-- The update mutation applied to the matched deliverable (server.py lines
1755-1764): copy every non-null request field, then, when the requested status
is `approved` or `rejected`, stamp the acting user and the current time into
the reviewer fields. -/
def applyDeliverableUpdate (u : DeliverableUpdate) (reviewer_id : Nat) (now : String)
    (d : Deliverable) : Deliverable :=
  let d1 := { d with
    name := u.name.getD d.name
    description := u.description.getD d.description
    status := u.status.getD d.status
    due_date := match u.due_date with | some v => some v | none => d.due_date
    feedback := match u.feedback with | some v => some v | none => d.feedback }
  if u.status = some "approved" ∨ u.status = some "rejected" then
    { d1 with reviewed_by := some reviewer_id, reviewed_at := some now }
  else d1

/-- `update_deliverable` restricted to one task document (server.py lines
1746-1772): find the first deliverable with the requested id (404 when
absent), apply the update mutation, write back the deliverable array. -/
def update_deliverable (t : Task) (did : Nat) (u : DeliverableUpdate)
    (reviewer_id : Nat) (now : String) : Except ApiError Task :=
  match updateFirst (fun d => d.id == did)
      (applyDeliverableUpdate u reviewer_id now) t.deliverables with
  | none => .error (.notFound "Entregable no encontrado")
  | some ds => .ok { t with deliverables := ds }

/-- Claim C6: an update that sets status to `approved` or `rejected` always stamps
the acting user's id and the current time into the reviewer fields (the
request model has no reviewer fields, so the caller can never supply them); an
update that sets any other status leaves the reviewer fields untouched. -/
theorem C6_review_stamps (t : Task) (did : Nat) (u : DeliverableUpdate)
    (reviewer_id : Nat) (now : String) (pre post : List Deliverable) (d : Deliverable)
    (hsplit : t.deliverables = pre ++ d :: post)
    (hpre : ∀ x ∈ pre, (x.id == did) = false)
    (hd : d.id = did) :
    update_deliverable t did u reviewer_id now
      = .ok { t with deliverables :=
          pre ++ applyDeliverableUpdate u reviewer_id now d :: post }
    ∧ ((u.status = some "approved" ∨ u.status = some "rejected") →
        (applyDeliverableUpdate u reviewer_id now d).reviewed_by = some reviewer_id
        ∧ (applyDeliverableUpdate u reviewer_id now d).reviewed_at = some now)
    ∧ (∀ s, u.status = some s → s ≠ "approved" → s ≠ "rejected" →
        (applyDeliverableUpdate u reviewer_id now d).reviewed_by = d.reviewed_by
        ∧ (applyDeliverableUpdate u reviewer_id now d).reviewed_at = d.reviewed_at) := by
  refine ⟨?_, ?_, ?_⟩
  · unfold update_deliverable
    rw [hsplit, updateFirst_spec _ _ pre d post hpre (by simp [hd])]
  · intro hs
    simp [applyDeliverableUpdate, hs]
  · intro s hs hap hrej
    have hcond : ¬ (u.status = some "approved" ∨ u.status = some "rejected") := by
      rw [hs]
      simp [hap, hrej]
    simp [applyDeliverableUpdate, hcond]

/-- Concrete in-review deliverable for the C6 witness. -/
def c6Deliverable : Deliverable :=
  { id := 40, name := "Kit", description := "", status := "in_review",
    due_date := some "2025-01-31", file_name := some "kit.zip",
    file_url := some "/api/uploads/kit.zip", file_size := some 5, file_type := some "zip",
    uploaded_at := some "t1", uploaded_by := some 2, feedback := none,
    reviewed_by := none, reviewed_at := none }

/-- Concrete task holding `c6Deliverable` for the C6 witness. -/
def c6Task : Task :=
  { id := 41, project_id := 1, module_id := "design", title := "Kit de recursos",
    description := "", status := "pending", checklist := [],
    deliverables := [c6Deliverable], due_date := some "2025-01-31",
    assigned_to := none, assigned_user_type := none, created_at := "t0" }

/-- The approval request used by the C6 witness. -/
def c6Update : DeliverableUpdate :=
  { name := none, description := none, status := some "approved",
    due_date := none, feedback := some "OK" }

/-- Witness for C6: approving `c6Deliverable` stamps reviewer id 7 and the
current time. -/
theorem C6_witness :
    update_deliverable c6Task 40 c6Update 7 "t9"
      = .ok { c6Task with deliverables :=
          [] ++ applyDeliverableUpdate c6Update 7 "t9" c6Deliverable :: [] }
    ∧ (applyDeliverableUpdate c6Update 7 "t9" c6Deliverable).reviewed_by = some 7
    ∧ (applyDeliverableUpdate c6Update 7 "t9" c6Deliverable).reviewed_at = some "t9" :=
  have h := C6_review_stamps c6Task 40 c6Update 7 "t9" [] [] c6Deliverable rfl
    (by decide) rfl
  ⟨h.1, (h.2.1 (Or.inl rfl)).1, (h.2.1 (Or.inl rfl)).2⟩

/-- User document (server.py `User` model; the password hash is stored beside
it in the Mongo document and is irrelevant to deletion). -/
structure User where
  id : Nat
  email : String
  name : String
  role : String
  user_type : Option String
deriving DecidableEq, Repr

/-- `delete_user` (server.py lines 1214-1223): a 400 invalid-input error when
the target is the acting administrator's own id, otherwise `delete_one`; a 404
not-found error when nothing was deleted. -/
def delete_user (users : List User) (current_id target_id : Nat) :
    Except ApiError (List User) :=
  if target_id == current_id then
    .error (.badRequest "No puedes eliminar tu propio usuario")
  else
    let remaining := removeFirst (fun u => u.id == target_id) users
    if remaining.length == users.length then
      .error (.notFound "Usuario no encontrado")
    else .ok remaining

lemma removeFirst_of_no_match {α : Type} (p : α → Bool) (l : List α)
    (h : ∀ a ∈ l, p a = false) : removeFirst p l = l := by
  induction l with
  | nil => rfl
  | cons a as ih =>
    have ha : p a = false := h a (List.mem_cons_self a as)
    simp only [removeFirst, ha, Bool.false_eq_true, if_false,
      ih (fun x hx => h x (List.mem_cons_of_mem a hx))]

lemma removeFirst_length_of_match {α : Type} (p : α → Bool) (l : List α)
    (h : ∃ a ∈ l, p a = true) : (removeFirst p l).length + 1 = l.length := by
  induction l with
  | nil => rcases h with ⟨a, ha, -⟩; cases ha
  | cons a as ih =>
    by_cases hp : p a = true
    · simp [removeFirst, hp]
    · rcases h with ⟨b, hb, hpb⟩
      rcases List.mem_cons.mp hb with rfl | hb'
      · exact absurd hpb hp
      · have hpa : p a = false := by
          cases hq : p a
          · rfl
          · exact absurd hq hp
        simp only [removeFirst, hpa, Bool.false_eq_true, if_false, List.length_cons]
        rw [← ih ⟨b, hb', hpb⟩]

/-- Claim C9: a user-delete request targeting the acting administrator's own id
fails with an invalid-input error; targeting a missing id fails with a
not-found error and removes nothing; only an existing different user is
deleted (the first stored record with the target id is removed). -/
theorem C9_delete_user (users : List User) (current_id target_id : Nat) :
    (target_id = current_id →
      delete_user users current_id target_id
        = .error (.badRequest "No puedes eliminar tu propio usuario"))
    ∧ (target_id ≠ current_id → (∀ u ∈ users, u.id ≠ target_id) →
      delete_user users current_id target_id
        = .error (.notFound "Usuario no encontrado")
      ∧ removeFirst (fun u => u.id == target_id) users = users)
    ∧ (target_id ≠ current_id → (∃ u ∈ users, u.id = target_id) →
      delete_user users current_id target_id
        = .ok (removeFirst (fun u => u.id == target_id) users)) := by
  refine ⟨?_, ?_, ?_⟩
  · intro h
    simp [delete_user, h]
  · intro hne hnone
    have hmatch : ∀ u ∈ users, (u.id == target_id) = false := by
      intro u hu
      simp [hnone u hu]
    have hrm := removeFirst_of_no_match _ users hmatch
    refine ⟨?_, hrm⟩
    simp [delete_user, hne, hrm]
  · intro hne hsome
    have hmatch : ∃ u ∈ users, (u.id == target_id) = true := by
      rcases hsome with ⟨u, hu, hid⟩
      exact ⟨u, hu, by simp [hid]⟩
    have hlen := removeFirst_length_of_match _ users hmatch
    have hlt : (removeFirst (fun u => u.id == target_id) users).length ≠ users.length := by
      omega
    simp [delete_user, hne, hlt]

/-- Concrete users collection for the C9 witness. -/
def c9Users : List User :=
  [{ id := 1, email := "admin@el360.es", name := "Ana", role := "admin",
     user_type := some "direccion" },
   { id := 2, email := "colab@el360.es", name := "Bruno", role := "collaborator",
     user_type := some "creativo" }]

/-- Witness for C9: with acting administrator 1, self-deletion errors,
deleting the missing id 99 errors, and deleting user 2 succeeds. -/
theorem C9_witness :
    delete_user c9Users 1 1
      = .error (.badRequest "No puedes eliminar tu propio usuario")
    ∧ (delete_user c9Users 1 99 = .error (.notFound "Usuario no encontrado")
      ∧ removeFirst (fun u => u.id == 99) c9Users = c9Users)
    ∧ delete_user c9Users 1 2 = .ok (removeFirst (fun u => u.id == 2) c9Users) :=
  ⟨(C9_delete_user c9Users 1 1).1 rfl,
    (C9_delete_user c9Users 1 99).2.1 (by decide) (by decide),
    (C9_delete_user c9Users 1 2).2.2 (by decide) ⟨c9Users.get ⟨1, by decide⟩, by decide, rfl⟩⟩

/-- Round-half-to-even to the nearest integer on rationals, modelling Python's
built-in `round` on the exact value. -/
def roundHalfEven (q : ℚ) : ℤ :=
  if q - (⌊q⌋ : ℚ) = 1/2 then (if ⌊q⌋ % 2 = 0 then ⌊q⌋ else ⌊q⌋ + 1)
  else round q

/-- Python `round(x, 1)` on the exact rational value. -/
def pyRound1 (q : ℚ) : ℚ := (roundHalfEven (q * 10) : ℚ) / 10

/-- `sum(1 for t in tasks if t["status"] == "completed")`
(server.py lines 1237 and 1266). -/
def completedCount (tasks : List Task) : Nat :=
  tasks.countP (fun t => t.status == "completed")

/-- The progress figure computed by the project read handlers (server.py lines
1236-1244 and 1265-1273): 0 for an empty task set, otherwise
`round((completed / len(tasks)) * 100, 1)`. -/
def project_progress (tasks : List Task) : ℚ :=
  if tasks.length = 0 then 0
  else pyRound1 (((completedCount tasks : ℚ) / (tasks.length : ℚ)) * 100)

/-- `current_user.get("role") in ["admin", "project_manager"]` (server.py
lines 1231 and 1301). -/
def is_management (role : String) : Bool :=
  role == "admin" || role == "project_manager"

/-- Project document as returned by the read handlers: the recomputed progress
and task counters, and the billing fields present (`some`) only when they were
not scrubbed (`project.pop(...)` for non-management callers). -/
structure ProjectResponse where
  id : Nat
  name : String
  client_name : String
  start_date : String
  end_date : String
  modules : List String
  status : String
  description : String
  created_by : Nat
  created_at : String
  progress : ℚ
  total_tasks : Nat
  completed_tasks : Nat
  module_costs : Option (List (String × ℚ))
  billing_mode : Option String
  cost_per_module : Option ℚ
  total_project_cost : Option ℚ
  enrollment_payment : Option ℚ
deriving DecidableEq, Repr

/-- `get_project` restricted to the progress computation and the financial
scrub (server.py lines 1256-1308): the stored `progress` field is overwritten
with the value recomputed from the project's current tasks, and the five
billing fields are removed from the response unless the caller has a
management role. -/
def get_project (db_tasks : List Task) (role : String) (p : Project) :
    ProjectResponse :=
  let tasks := db_tasks.filter (fun t => t.project_id == p.id)
  let mgmt := is_management role
  { id := p.id
    name := p.name
    client_name := p.client_name
    start_date := p.start_date
    end_date := p.end_date
    modules := p.modules
    status := p.status
    description := p.description
    created_by := p.created_by
    created_at := p.created_at
    progress := project_progress tasks
    total_tasks := tasks.length
    completed_tasks := completedCount tasks
    module_costs := if mgmt then some p.module_costs else none
    billing_mode := if mgmt then some p.billing_mode else none
    cost_per_module := if mgmt then some p.cost_per_module else none
    total_project_cost := if mgmt then some p.total_project_cost else none
    enrollment_payment := if mgmt then some p.enrollment_payment else none }

/-- `get_projects` (server.py lines 1228-1253): every listed project gets the
same per-project progress computation and financial scrub as `get_project`. -/
def get_projects (db_tasks : List Task) (role : String) (projects : List Project) :
    List ProjectResponse :=
  projects.map (get_project db_tasks role)

/-- Three tasks of project 5, one completed, exercising the `33.3` example. -/
def c7Tasks : List Task :=
  [{ id := 50, project_id := 5, module_id := "design", title := "A", description := "",
     status := "completed", checklist := [], deliverables := [], due_date := none,
     assigned_to := none, assigned_user_type := none, created_at := "t0" },
   { id := 51, project_id := 5, module_id := "design", title := "B", description := "",
     status := "pending", checklist := [], deliverables := [], due_date := none,
     assigned_to := none, assigned_user_type := none, created_at := "t0" },
   { id := 52, project_id := 5, module_id := "tech", title := "C", description := "",
     status := "in_progress", checklist := [], deliverables := [], due_date := none,
     assigned_to := none, assigned_user_type := none, created_at := "t0" }]

lemma c7_one_of_three : project_progress c7Tasks = 333/10 := by
  have h1 : completedCount c7Tasks = 1 := by decide
  have h2 : c7Tasks.length = 3 := rfl
  simp only [project_progress, h1, h2]
  rw [if_neg (by norm_num)]
  have h3 : ((1:ℕ):ℚ) / ((3:ℕ):ℚ) * 100 * 10 = 1000/3 := by push_cast; norm_num
  rw [pyRound1, roundHalfEven, h3]
  have hfloor : ⌊(1000:ℚ)/3⌋ = 333 := by
    apply Int.floor_eq_iff.mpr
    constructor <;> norm_num
  rw [hfloor]
  have hne : (1000:ℚ)/3 - ((333:ℤ):ℚ) ≠ 1/2 := by push_cast; norm_num
  rw [if_neg hne]
  have hround : round ((1000:ℚ)/3) = 333 := by
    rw [round_eq]
    have h4 : (1000:ℚ)/3 + 1/2 = 2003/6 := by norm_num
    rw [h4]
    apply Int.floor_eq_iff.mpr
    constructor <;> norm_num
  rw [hround]
  norm_num

/-- Claim C7: the progress reported by a project read is recomputed from the current
task set and does not depend on the stored progress value; it is 0 for a
project with no tasks, and for three tasks with one completed it is 33.3. -/
theorem C7_progress (db_tasks : List Task) (role : String) (p : Project) (q : ℚ) :
    (get_project db_tasks role { p with progress := q }).progress
      = project_progress (db_tasks.filter (fun t => t.project_id == p.id))
    ∧ (get_project db_tasks role { p with progress := q }).progress
      = (get_project db_tasks role p).progress
    ∧ project_progress [] = 0
    ∧ project_progress c7Tasks = 333/10 :=
  ⟨rfl, rfl, rfl, c7_one_of_three⟩

/-- Concrete project for the C8 witness. -/
def c8Project : Project :=
  { id := 8, name := "Grado", client_name := "Uni", start_date := "2025-01-01",
    end_date := "2025-12-31", modules := ["tech"], module_costs := [("tech", 2000)],
    billing_mode := "module", status := "active", description := "", created_by := 3,
    created_at := "t0", progress := 0, cost_per_module := 0,
    total_project_cost := 2000, enrollment_payment := 150 }

/-- Claim C8: the five billing fields (module cost map, billing mode, per-module
cost, total cost, enrollment payment) are present in a project read exactly
when the caller's role is a management role (`admin` or `project_manager`),
and are absent for every project listed to a non-management caller. -/
theorem C8_billing_visibility (db_tasks : List Task) (role : String) (p : Project)
    (projects : List Project) :
    ((get_project db_tasks role p).module_costs
      = if is_management role then some p.module_costs else none)
    ∧ ((get_project db_tasks role p).billing_mode
      = if is_management role then some p.billing_mode else none)
    ∧ ((get_project db_tasks role p).cost_per_module
      = if is_management role then some p.cost_per_module else none)
    ∧ ((get_project db_tasks role p).total_project_cost
      = if is_management role then some p.total_project_cost else none)
    ∧ ((get_project db_tasks role p).enrollment_payment
      = if is_management role then some p.enrollment_payment else none)
    ∧ (is_management role = true ↔ (role = "admin" ∨ role = "project_manager"))
    ∧ (is_management role = false →
        ∀ r ∈ get_projects db_tasks role projects,
          r.module_costs = none ∧ r.billing_mode = none ∧ r.cost_per_module = none
          ∧ r.total_project_cost = none ∧ r.enrollment_payment = none) := by
  refine ⟨rfl, rfl, rfl, rfl, rfl, ?_, ?_⟩
  · simp [is_management]
  · intro hrole r hr
    rcases List.mem_map.mp hr with ⟨p', -, rfl⟩
    simp [get_project, hrole]

/-- Witness for C8: a collaborator is not management and sees none of the
billing fields in a project listing. -/
theorem C8_witness :
    (is_management "collaborator" = true ↔
      ("collaborator" = "admin" ∨ "collaborator" = "project_manager"))
    ∧ (∀ r ∈ get_projects [] "collaborator" [c8Project],
        r.module_costs = none ∧ r.billing_mode = none ∧ r.cost_per_module = none
        ∧ r.total_project_cost = none ∧ r.enrollment_payment = none) :=
  ⟨(C8_billing_visibility [] "collaborator" c8Project [c8Project]).2.2.2.2.2.1,
    (C8_billing_visibility [] "collaborator" c8Project [c8Project]).2.2.2.2.2.2
      (by decide)⟩

end Learning360
